import Mathlib

/-!
Verification of the Agentic-Text2SQL query-processing pipeline.

This file gives a shallow embedding of the pipeline code:

* `SQLAgent.detect_and_fix_common_issues` (app/agents/sql_agent.py):
  the heuristic fixer, consisting of the literal-quoting regex pass
  (`re.sub` with pattern `= ([a-zA-Z0-9_]+)(?!\s*\(|\s*'|\s*\d|\s*::)`,
  including the backtracking behaviour of the Python `re` engine) and the
  table-name normalisation pass (`re.finditer` over a snapshot of the
  query, `str.replace` of every non-canonical match).
* `SQLAgent.validate_query`: the safety gate (parse, first-statement
  SELECT-type check, whole-word blocked-keyword scan over the full text).
  The behaviour of `sqlparse` (type of the first parsed statement) is an
  external library and is modelled as an oracle parameter `gt`; a concrete
  instance `sqlparseGetType` keys on the first word of the stripped text.
* `SQLAgent.debug_query`, `SQLAgent.process_query`,
  `LLMService.generate_sql_query`, `LLMService.summarize_query_results`,
  `LLMService.format_results_to_markdown`,
  `MockResponse.get_mock_response`, `MockResponse.get_empty_results_response`,
  `QueryService.process_query` (app/services/query_service.py and
  app/services/llm_service.py).  External collaborators (the OpenAI
  completion API and the PostgreSQL executor) are modelled as consumable
  oracle streams in a `World`; every call to a collaborator is recorded in
  an event trace so that temporal claims (what was executed, how many debug
  attempts) can be stated.

Python `None` values and absent dictionary keys are both modelled as
`Option.none`.  Recursions that are not structural in the source are given
explicit fuel equal to the length of the scanned list, which is always
sufficient (every step consumes at least one character).
-/

/-- ASCII word character, the `[a-zA-Z0-9_]` class (and `\b`/`\w` for the
ASCII inputs handled here). -/
def isWordChar (c : Char) : Bool :=
  ('a' ≤ c && c ≤ 'z') || ('A' ≤ c && c ≤ 'Z') || ('0' ≤ c && c ≤ '9') || c = '_'

/-- ASCII whitespace, the Python `\s` class restricted to ASCII. -/
def isSpaceChar (c : Char) : Bool :=
  c = ' ' || c = '\t' || c = '\n' || c = '\r' || c = '\x0b' || c = '\x0c'

/-- The negative-lookahead test of the literal-quoting pattern
`(?!\s*\(|\s*'|\s*\d|\s*::)`: the text starting at the position right after
the captured group begins with optional whitespace followed by an opening
parenthesis, a single quote, a digit, or a double colon. -/
def laBad (s : List Char) : Bool :=
  match s.dropWhile isSpaceChar with
  | [] => false
  | c :: rest => c = '(' || c = '\'' || c.isDigit || (c = ':' && rest.head? = some ':')

/-- Backtracking of the greedy group `([a-zA-Z0-9_]+)` against the negative
lookahead: try group lengths from `k` down to `1` and return the first
(longest) one whose following text does not trigger the lookahead. -/
def shrinkAux (run tl : List Char) : Nat → Option Nat
  | 0 => none
  | k + 1 =>
    if laBad (run.drop (k + 1) ++ tl) then shrinkAux run tl k else some (k + 1)

/-- Longest usable group length for a maximal word-character run `run`
followed by `tl`, or `none` when the whole occurrence fails to match. -/
def tryShrink (run tl : List Char) : Option Nat :=
  shrinkAux run tl run.length

/-- One left-to-right `re.sub` scan of the literal-quoting pattern
`= ([a-zA-Z0-9_]+)(?!\s*\(|\s*'|\s*\d|\s*::)`, replacing each match
`= g` by `= 'g'` and resuming the scan right after the consumed group, as
the Python engine does.  The fuel argument bounds the recursion and is
sufficient whenever it is at least the length of the list: each recursive
call strictly shrinks the list. -/
def quoteAux : Nat → List Char → List Char × Bool
  | 0, l => (l, false)
  | _ + 1, [] => ([], false)
  | n + 1, c :: rest =>
    if c = '=' ∧ rest.head? = some ' ' then
      let rest2 := rest.tail
      let run := rest2.takeWhile isWordChar
      let tl := rest2.dropWhile isWordChar
      match tryShrink run tl with
      | some k =>
        ('=' :: ' ' :: '\'' :: (run.take k ++ '\'' :: (quoteAux n (run.drop k ++ tl)).1),
         true)
      | none => ('=' :: (quoteAux n rest).1, (quoteAux n rest).2)
    else
      (c :: (quoteAux n rest).1, (quoteAux n rest).2)

/-- Fix 1 of `detect_and_fix_common_issues`: the literal-quoting pass,
returning the rewritten character list and whether any replacement fired
(the `was_modified` side effect of `add_quotes_to_strings`). -/
def quotePass (l : List Char) : List Char × Bool :=
  quoteAux l.length l

/-- Case-insensitive prefix test: does `s` start with `pat`, comparing
characters under `Char.toLower` (the effect of `re.IGNORECASE`)? -/
def ciStarts : List Char → List Char → Bool
  | [], _ => true
  | _ :: _, [] => false
  | a :: as, b :: bs => (a.toLower = b.toLower) && ciStarts as bs

/-- Match attempt for the table pattern `\b<table>[s]?\b` (IGNORECASE) at the
current position of `s`, returning the length of the matched text.  The
leading `\b` is checked by the caller; the table name is assumed to consist
of word characters (as the table names of a SQL schema do), so the trailing
`\b` holds exactly when the next character is absent or a non-word
character.  The optional `[s]?` is greedy and backtracks. -/
def matchHere (t s : List Char) : Option Nat :=
  if ciStarts t s then
    match s.drop t.length with
    | [] => some t.length
    | c :: rest2 =>
      if (c = 's' || c = 'S') &&
          (match rest2.head? with | none => true | some c2 => !isWordChar c2) then
        some (t.length + 1)
      else if !isWordChar c then some t.length
      else none
  else none

/-- All (leftmost, non-overlapping) matched texts of `\b<table>[s]?\b`
(IGNORECASE) in `s`, in order — the texts `re.finditer` yields.  `prevWord`
records whether the previous character is a word character (for `\b`). -/
def findAux (t : List Char) : Nat → List Char → Bool → List (List Char)
  | 0, _, _ => []
  | _ + 1, [], _ => []
  | n + 1, c :: rest, prevWord =>
    if prevWord then findAux t n rest (isWordChar c)
    else
      match matchHere t (c :: rest) with
      | some len => (c :: rest).take len :: findAux t n ((c :: rest).drop len) true
      | none => findAux t n rest (isWordChar c)

/-- Matched texts of the table pattern in `s` (empty table names, which the
source never produces from `schema_info.keys()`, match nothing). -/
def findMatches (t s : List Char) : List (List Char) :=
  if t.isEmpty then [] else findAux t s.length s false

/-- Exact (case-sensitive) prefix test, as used by `str.replace`. -/
def startsWithL : List Char → List Char → Bool
  | [], _ => true
  | _ :: _, [] => false
  | a :: as, b :: bs => a = b && startsWithL as bs

/-- `str.replace`: replace every leftmost non-overlapping occurrence of
`pat` in `s` by `repl`.  Fuel equal to the length of `s` is sufficient for
the non-empty patterns that arise from regex matches. -/
def replaceAllAux (pat repl : List Char) : Nat → List Char → List Char
  | 0, s => s
  | _ + 1, [] => []
  | n + 1, c :: rest =>
    if startsWithL pat (c :: rest) then
      repl ++ replaceAllAux pat repl n ((c :: rest).drop pat.length)
    else
      c :: replaceAllAux pat repl n rest

/-- `s.replace(pat, repl)` for a non-empty `pat`. -/
def replaceAll (s pat repl : List Char) : List Char :=
  if pat.isEmpty then s else replaceAllAux pat repl s.length s

/-- The body of Fix 2 for one table name: find all `\b<table>[s]?\b` matches
in a snapshot of the current query, then for each matched text that differs
from the canonical name, replace all its occurrences (in the evolving query)
and record `was_modified`. -/
def applyTable (t : List Char) (acc : List Char × Bool) : List Char × Bool :=
  (findMatches t acc.1).foldl
    (fun a m => if m ≠ t then (replaceAll a.1 m t, true) else a) acc

/-- `SQLAgent.detect_and_fix_common_issues`: the literal-quoting pass
followed by the table-name normalisation pass over the tables of
`schema_info.keys()` in order, with the shared `was_modified` flag. -/
def SQLAgent.detect_and_fix_common_issues (schema : List String) (query : String) :
    String × Bool :=
  let p := (schema.map String.data).foldl (fun a t => applyTable t a) (quotePass query.data)
  (String.mk p.1, p.2)

/-- `Settings.BLOCKED_SQL_KEYWORDS` (app/core/config.py). -/
def BLOCKED_SQL_KEYWORDS : List String :=
  ["INSERT", "UPDATE", "DELETE", "DROP", "CREATE", "ALTER", "TRUNCATE", "GRANT",
   "REVOKE", "COMMIT", "ROLLBACK"]

/-- Scan for `re.search(r'\b' + kw + r'\b', s, re.IGNORECASE)` for a keyword
`kw` made of letters: some position of `s` is preceded by no word character,
matches `kw` case-insensitively, and is followed by no word character.
`prev?` is the character before the current position, if any. -/
def wwScan (kw : List Char) : Option Char → List Char → Bool
  | _, [] => false
  | prev?, c :: rest =>
    ((match prev? with | none => true | some p => !isWordChar p) &&
      ciStarts kw (c :: rest) &&
      (match ((c :: rest).drop kw.length).head? with
       | none => true
       | some c2 => !isWordChar c2)) ||
    wwScan kw (some c) rest

/-- Whole-word, case-insensitive occurrence of keyword `kw` in `q`. -/
def containsWholeWord (kw q : String) : Bool :=
  wwScan kw.data none q.data

/-- Python `str.strip` over ASCII whitespace. -/
def pyStrip (s : String) : String :=
  String.mk (((s.data.dropWhile isSpaceChar).reverse.dropWhile isSpaceChar).reverse)

/-- Uppercase a string (Python `str.upper` for ASCII). -/
def upperStr (s : String) : String :=
  String.mk (s.data.map Char.toUpper)

/-- `SQLAgent.validate_query`.  The call `sqlparse.parse(query.strip())` and
the `get_type()` of its first statement are external library behaviour,
abstracted as the oracle `gt`: `gt` applied to the stripped query returns
`none` when no statement parses and `some ty` when the first statement has
type `ty` (sqlparse returns `"UNKNOWN"` for unrecognized statements; an
empty type string models a falsy `get_type()` result).  The blocked-keyword
scan runs over the full original `query` text. -/
def SQLAgent.validate_query (gt : String → Option String) (query : String) :
    Bool × String :=
  match gt (pyStrip query) with
  | none => (false, "Empty or invalid SQL query")
  | some ty =>
    if ty = "" || upperStr ty ≠ "SELECT" then
      (false, "Only SELECT queries are allowed")
    else
      match BLOCKED_SQL_KEYWORDS.find? (fun kw => containsWholeWord kw query) with
      | some kw => (false, "Disallowed SQL keyword found: " ++ kw)
      | none => (true, "Query validation successful")

/-- Statement keywords that `sqlparse` recognizes as the type of a
statement, for the concrete oracle below. -/
def statementTypes : List String :=
  ["SELECT", "INSERT", "UPDATE", "DELETE", "CREATE", "DROP", "ALTER",
   "TRUNCATE", "GRANT", "REVOKE", "COMMIT", "ROLLBACK"]

/-- Concrete model of `sqlparse`: the type of the first parsed statement of
`s`, keyed on the first word of the (already stripped) text; `none` when the
text is empty (no statements parse), `"UNKNOWN"` when the first word is not
a recognized statement keyword. -/
def sqlparseGetType (s : String) : Option String :=
  if s.data.isEmpty then none
  else
    let fw := upperStr (String.mk (s.data.takeWhile isWordChar))
    if statementTypes.contains fw then some fw else some "UNKNOWN"

/-- A result row: an ordered mapping from column name to scalar value
(`none` models SQL `NULL`; other scalars are modelled by their string
rendering, which is all `format_results_to_markdown` uses). -/
abbrev Row := List (String × Option String)

/-- The final result envelope (`PipelineResult`).  Python `None` values and
absent dictionary keys are both modelled as `none`. -/
structure PipelineResult where
  success : Bool
  query : Option String := none
  original_query : Option String := none
  was_debugged : Option Bool := none
  data : Option (List Row) := none
  summary : Option String := none
  message : Option String := none
  record_count : Option Nat := none
  error : Option (String × String) := none
  mock : Option Bool := none
deriving DecidableEq

/-- `MockResponseGenerator.error_responses` (app/utils/mock_response.py). -/
def MockResponse.error_responses : List (String × String) :=
  [("sql_generation_failed",
    "I couldn\x27t generate a valid SQL query for your question. Please try rephrasing or providing more context."),
   ("sql_validation_failed",
    "The generated SQL query doesn\x27t meet security requirements. Only read-only queries are allowed."),
   ("database_connection_error",
    "There was an issue connecting to the database. Please try again later."),
   ("execution_error",
    "An error occurred while executing the query. Please check your question for clarity."),
   ("insufficient_permissions",
    "You don\x27t have permission to access this information."),
   ("empty_results",
    "The query executed successfully but returned no results."),
   ("summarization_failed",
    "I couldn\x27t generate a summary for the query results."),
   ("general_error",
    "An unexpected error occurred. Please try again later.")]

/-- `MockResponseGenerator.get_mock_response`: the typed error envelope.
`custom` models the optional `custom_message` argument; a `None` or empty
custom message falls back to the per-type default (with the general default
for unknown types).  The Python dict sets `"data": None`, modelled as an
absent field. -/
def MockResponse.get_mock_response (error_type : String) (custom : Option String) :
    PipelineResult :=
  let default_msg :=
    (((MockResponse.error_responses.find? (fun p => p.1 == error_type)).map
        Prod.snd).getD
      "An unexpected error occurred. Please try again later.")
  let msg := match custom with
    | some m => if m ≠ "" then m else default_msg
    | none => default_msg
  { success := false, error := some (error_type, msg), mock := some true }

/-- `MockResponseGenerator.get_empty_results_response`. -/
def MockResponse.get_empty_results_response (query : Option String) : PipelineResult :=
  { success := true,
    message := some "Query executed successfully but returned no results.",
    query := query,
    data := some [],
    summary := some "No data was found for your query." }

/-- Join strings with a separator (`sep.join(parts)`). -/
def joinSep (sep : String) : List String → String
  | [] => ""
  | [x] => x
  | x :: y :: rest => x ++ sep ++ joinSep sep (y :: rest)

/-- One markdown cell: missing column → empty, `NULL` → empty, a value
containing a pipe or newline is wrapped in backticks. -/
def mdCell (row : Row) (col : String) : String :=
  match row.find? (fun kv => kv.1 == col) with
  | none => ""
  | some (_, none) => ""
  | some (_, some v) =>
    if v.data.contains '|' || v.data.contains '\n' then "\x60" ++ v ++ "\x60" else v

/-- Result of `LLMService.format_results_to_markdown` (the error branch of
the Python function is reachable only through untyped rows and does not
arise for `Row` values, so the model has no error field). -/
structure MdData where
  markdown_results : String
  total_rows : Nat
  displayed_rows : Nat
deriving DecidableEq

/-- `LLMService.format_results_to_markdown`: header from the first-seen
union of keys over the displayed rows, a dash separator row, then one row
per record. -/
def LLMService.format_results_to_markdown (results : List Row) (max_rows : Nat) :
    MdData :=
  let total_rows := results.length
  if total_rows = 0 then ⟨"No results found", 0, 0⟩
  else
    let display_results := results.take max_rows
    let displayed_rows := display_results.length
    let columns := display_results.foldl
      (fun cols row => row.foldl
        (fun cs kv => if cs.contains kv.1 then cs else cs ++ [kv.1]) cols)
      ([] : List String)
    if columns.isEmpty then ⟨"Results structure could not be determined", total_rows, 0⟩
    else
      let header := "| " ++ joinSep " | " columns ++ " |\n" ++
        "| " ++ joinSep " | " (columns.map (fun _ => "---")) ++ " |\n"
      let body := display_results.foldl
        (fun acc row =>
          acc ++ "| " ++ joinSep " | " (columns.map (fun col => mdCell row col)) ++ " |\n")
        header
      ⟨body, total_rows, displayed_rows⟩

/-- Outcome of one structured generation call (`generate_sql_query`
function-calling round): an exception anywhere up to and including both
model attempts (`raise`), a response without the expected tool call
(`noToolCall`), or the parsed `{query?, error?}` arguments (absent fields
are `none`). -/
inductive GenResp where
  | raise (msg : String)
  | noToolCall
  | args (query : Option String) (error : Option String)
deriving DecidableEq

/-- Outcome of one structured debug call (`fix_sql_query` round): the parsed
arguments are `{fixed_query?, explanation?, error?}`. -/
inductive DebugResp where
  | raise (msg : String)
  | noToolCall
  | args (fixed_query explanation error : Option String)
deriving DecidableEq

/-- Outcome of one summarization round: client initialization raised,
the completion call raised, or it returned `content`. -/
inductive SummResp where
  | initRaise (msg : String)
  | apiRaise (msg : String)
  | ok (content : String)
deriving DecidableEq

/-- The external collaborators, as consumable oracle streams: each call to
the executor, the generation model, the debug model, or the summarizer pops
the next prescribed outcome.  Universally quantifying over `World` covers
every behaviour of the collaborators. For the executor, `Except.error e`
models a raised database exception with text `e`. -/
structure World where
  gens : List GenResp
  debugs : List DebugResp
  execs : List (Except String (List Row))
  summs : List SummResp

/-- Observable calls to the external collaborators, recorded in order. -/
inductive Ev where
  | genCall
  | execCall (query : String)
  | debugCall (query : String)
  | summCall
deriving DecidableEq

/-- Pop the next generation outcome (an exhausted stream behaves like a
response without a tool call). -/
def popGen (w : World) : GenResp × World :=
  (w.gens.headD GenResp.noToolCall, { w with gens := w.gens.tail })

/-- Pop the next debug outcome. -/
def popDebug (w : World) : DebugResp × World :=
  (w.debugs.headD DebugResp.noToolCall, { w with debugs := w.debugs.tail })

/-- Pop the next executor outcome (an exhausted stream behaves like a
connection error). -/
def popExec (w : World) : Except String (List Row) × World :=
  (w.execs.headD (Except.error "connection error"), { w with execs := w.execs.tail })

/-- Pop the next summarization outcome. -/
def popSumm (w : World) : SummResp × World :=
  (w.summs.headD (SummResp.apiRaise "connection error"), { w with summs := w.summs.tail })

/-- Is this event a debug-repair attempt? -/
def isDebug : Ev → Bool
  | Ev.debugCall _ => true
  | _ => false

/-- Number of debug-repair attempts in a trace. -/
def countDebug (tr : List Ev) : Nat := tr.countP isDebug

/-- The response-handling tail of `LLMService.generate_sql_query` once the
tool-call arguments are in hand: a truthy `error` field wins over any
`query` field; then an absent or empty query is the failure
"Generated SQL query is empty"; otherwise success with the query. -/
def genRespToOutcome (query? error? : Option String) : Bool × String :=
  let sql_query := query?.getD ""
  let error := error?.getD ""
  if error ≠ "" then (false, error)
  else if sql_query = "" then (false, "Generated SQL query is empty")
  else (true, sql_query)

/-- `LLMService.generate_sql_query`: one structured completion round (the
primary/fallback model retry is inside the oracle outcome), returning
`(success, query-or-error)`.  Any exception is caught and surfaced as
`"Error: ..."`. -/
def LLMService.generate_sql_query (w : World) : (Bool × String) × World × List Ev :=
  let pr := popGen w
  let res : Bool × String :=
    match pr.1 with
    | GenResp.raise msg => (false, "Error: " ++ msg)
    | GenResp.noToolCall => (false, "Failed to generate SQL query")
    | GenResp.args query? error? => genRespToOutcome query? error?
  (res, pr.2, [Ev.genCall])

/-- `SQLAgent.debug_query`: one structured debug round on `query` (with the
failing `error_message` as context), followed by re-validation of the fixed
query; returns `(success, fixed-query-or-error)`.  Any exception is caught
and surfaced as `"Debugging error: ..."`. -/
def SQLAgent.debug_query (gt : String → Option String) (query _error_message : String)
    (w : World) : (Bool × String) × World × List Ev :=
  let pr := popDebug w
  let res : Bool × String :=
    match pr.1 with
    | DebugResp.raise msg => (false, "Debugging error: " ++ msg)
    | DebugResp.noToolCall => (false, "Failed to debug query")
    | DebugResp.args fixed? _expl? err? =>
      let fixed_query := fixed?.getD ""
      let error := err?.getD ""
      if error ≠ "" then (false, error)
      else if fixed_query = "" then (false, "Failed to generate a fixed query")
      else
        match SQLAgent.validate_query gt fixed_query with
        | (true, _) => (true, fixed_query)
        | (false, validation_result) => (false, validation_result)
  (res, pr.2, [Ev.debugCall query])

/-- `LLMService.summarize_query_results`: every exception path inside the
Python body is caught, so the model is total.  Client-initialization
failure yields the fixed fallback sentence; with a live client, an empty
result list short-circuits (before any completion call); a completion
failure yields the fallback sentence; otherwise the summary is the
completion content followed by the markdown preview and the row-count
disclosure. -/
def LLMService.summarize_query_results (_user_query sql_query : String)
    (results : List Row) (w : World) : String × World × List Ev :=
  let _ := sql_query
  let pr := popSumm w
  let fallback :=
    match (MockResponse.get_mock_response "summarization_failed" none).error with
    | some p => p.2
    | none => ""
  let res : String :=
    match pr.1 with
    | SummResp.initRaise _ => fallback
    | SummResp.apiRaise _ =>
      if results.isEmpty then "The query returned no results." else fallback
    | SummResp.ok content =>
      if results.isEmpty then "The query returned no results."
      else
        let md := LLMService.format_results_to_markdown results 10
        if md.total_rows > md.displayed_rows then
          content ++ "\n\nHere are the top " ++ toString md.displayed_rows ++
            " results out of " ++ toString md.total_rows ++ " total rows:\n\n" ++
            md.markdown_results
        else
          content ++ "\n\nHere are all " ++ toString md.total_rows ++
            " results:\n\n" ++ md.markdown_results
  (res, pr.2, [Ev.summCall])

/-- `SQLAgent.process_query`: heuristic fix, then validation; on validation
failure the agent first *runs the query against the database* to harvest a
specific error (returning success if that execution does not raise), then
attempts one debug repair and re-validates it. -/
def SQLAgent.process_query (gt : String → Option String) (schema : List String)
    (query : String) (w : World) : (Bool × String) × World × List Ev :=
  let fx := SQLAgent.detect_and_fix_common_issues schema query
  let q1 := if fx.2 then fx.1 else query
  match SQLAgent.validate_query gt q1 with
  | (true, _) => ((true, q1), w, [])
  | (false, validation_result) =>
    let ex := popExec w
    match ex.1 with
    | Except.ok _ => ((true, q1), ex.2, [Ev.execCall q1])
    | Except.error exec_error =>
      let d := SQLAgent.debug_query gt q1 exec_error ex.2
      match d.1 with
      | (true, debug_result) =>
        match SQLAgent.validate_query gt debug_result with
        | (true, _) => ((true, debug_result), d.2.1, Ev.execCall q1 :: d.2.2)
        | (false, _) => ((false, debug_result), d.2.1, Ev.execCall q1 :: d.2.2)
      | (false, _) => ((false, validation_result), d.2.1, Ev.execCall q1 :: d.2.2)

/-- `QueryService.process_query`: generation, agent processing, execution,
at most one post-execution debug repair with one re-execution, empty-result
short-circuit, summarization, and the typed envelopes. -/
def QueryService.process_query (gt : String → Option String) (schema : List String)
    (user_query : String) (w : World) : PipelineResult × World × List Ev :=
  let g := LLMService.generate_sql_query w
  match g.1 with
  | (false, sql_result) =>
    (MockResponse.get_mock_response "sql_generation_failed" (some sql_result),
     g.2.1, g.2.2)
  | (true, sql_result) =>
    let p := SQLAgent.process_query gt schema sql_result g.2.1
    match p.1 with
    | (false, processed_sql) =>
      (MockResponse.get_mock_response "sql_validation_failed" (some processed_sql),
       p.2.1, g.2.2 ++ p.2.2)
    | (true, processed_sql) =>
      let ex := popExec p.2.1
      match ex.1 with
      | Except.ok query_results =>
        if query_results.isEmpty then
          (MockResponse.get_empty_results_response (some processed_sql), ex.2,
           g.2.2 ++ p.2.2 ++ [Ev.execCall processed_sql])
        else
          let s := LLMService.summarize_query_results user_query processed_sql
            query_results ex.2
          ({ success := true, query := some processed_sql,
             data := some query_results, summary := some s.1,
             record_count := some query_results.length },
           s.2.1, g.2.2 ++ p.2.2 ++ [Ev.execCall processed_sql] ++ s.2.2)
      | Except.error e =>
        let d := SQLAgent.debug_query gt processed_sql e ex.2
        match d.1 with
        | (true, debug_result) =>
          let ex2 := popExec d.2.1
          match ex2.1 with
          | Except.ok query_results =>
            if query_results.isEmpty then
              (MockResponse.get_empty_results_response (some debug_result), ex2.2,
               g.2.2 ++ p.2.2 ++ [Ev.execCall processed_sql] ++ d.2.2 ++
                 [Ev.execCall debug_result])
            else
              let s := LLMService.summarize_query_results user_query debug_result
                query_results ex2.2
              ({ success := true, query := some debug_result,
                 original_query := some processed_sql,
                 data := some query_results, summary := some s.1,
                 record_count := some query_results.length,
                 was_debugged := some true },
               s.2.1, g.2.2 ++ p.2.2 ++ [Ev.execCall processed_sql] ++ d.2.2 ++
                 [Ev.execCall debug_result] ++ s.2.2)
          | Except.error _ =>
            (MockResponse.get_mock_response "execution_error" (some e), ex2.2,
             g.2.2 ++ p.2.2 ++ [Ev.execCall processed_sql] ++ d.2.2 ++
               [Ev.execCall debug_result])
        | (false, _) =>
          (MockResponse.get_mock_response "execution_error" (some e), d.2.1,
           g.2.2 ++ p.2.2 ++ [Ev.execCall processed_sql] ++ d.2.2)

/-! ### Helper lemmas about the heuristic fixer -/

/-- If the quoting scan reports no replacement, it returned its input. -/
theorem quoteAux_unchanged :
    ∀ (n : Nat) (l r : List Char), quoteAux n l = (r, false) → r = l := by
  intro n
  induction n with
  | zero =>
    intro l r h
    simp only [quoteAux] at h
    exact (Prod.mk.injEq _ _ _ _ ▸ h).1.symm
  | succ n ih =>
    intro l r h
    match l with
    | [] =>
      simp only [quoteAux] at h
      exact (Prod.mk.injEq _ _ _ _ ▸ h).1.symm
    | c :: rest =>
      simp only [quoteAux] at h
      by_cases hc : c = '=' ∧ rest.head? = some ' '
      · rw [if_pos hc] at h
        rcases hts : tryShrink (rest.tail.takeWhile isWordChar)
            (rest.tail.dropWhile isWordChar) with _ | k
        · rw [hts] at h
          obtain ⟨h1, h2⟩ := Prod.mk.injEq _ _ _ _ ▸ h
          have hr := ih rest _ (Prod.ext rfl h2)
          rw [← h1, hc.1]
          exact congrArg (fun x => '=' :: x) hr
        · rw [hts] at h
          exact absurd (Prod.mk.injEq _ _ _ _ ▸ h).2 (by simp)
      · rw [if_neg hc] at h
        obtain ⟨h1, h2⟩ := Prod.mk.injEq _ _ _ _ ▸ h
        have hr := ih rest _ (Prod.ext rfl h2)
        rw [← h1]
        exact congrArg (fun x => c :: x) hr

/-- The quoting scan leaves any text without `=` characters untouched. -/
theorem quoteAux_no_eq :
    ∀ (n : Nat) (l : List Char), '=' ∉ l → quoteAux n l = (l, false) := by
  intro n
  induction n with
  | zero => intro l _; rfl
  | succ n ih =>
    intro l hl
    match l with
    | [] => rfl
    | c :: rest =>
      have hc : ¬(c = '=' ∧ rest.head? = some ' ') := by
        rintro ⟨rfl, -⟩
        exact hl (List.mem_cons_self '=' rest)
      have hrest : '=' ∉ rest := fun hm => hl (List.mem_cons_of_mem _ hm)
      simp only [quoteAux, if_neg hc, ih rest hrest]

/-- The `was_modified` flag of the replacement fold never drops back to
`false`. -/
theorem foldRep_snd_true (t : List Char) :
    ∀ (ms : List (List Char)) (acc : List Char × Bool), acc.2 = true →
      (ms.foldl (fun a m => if m ≠ t then (replaceAll a.1 m t, true) else a) acc).2 =
        true := by
  intro ms
  induction ms with
  | nil => intro acc h; exact h
  | cons m ms ih =>
    intro acc h
    simp only [List.foldl_cons]
    by_cases hm : m ≠ t
    · rw [if_pos hm]
      exact ih _ rfl
    · rw [if_neg hm]
      exact ih _ h

/-- If the replacement fold for one table reports no modification, it did
not change the query, and the incoming flag was already `false`. -/
theorem foldRep_false (t : List Char) :
    ∀ (ms : List (List Char)) (acc : List Char × Bool) (r : List Char),
      ms.foldl (fun a m => if m ≠ t then (replaceAll a.1 m t, true) else a) acc =
        (r, false) →
      r = acc.1 ∧ acc.2 = false := by
  intro ms
  induction ms with
  | nil =>
    intro acc r h
    obtain ⟨h1, h2⟩ := Prod.mk.injEq _ _ _ _ ▸ h.symm
    exact ⟨h1, h2.symm ▸ rfl⟩
  | cons m ms ih =>
    intro acc r h
    simp only [List.foldl_cons] at h
    by_cases hm : m ≠ t
    · rw [if_pos hm] at h
      have := foldRep_snd_true t ms (replaceAll acc.1 m t, true) rfl
      rw [h] at this
      exact absurd this (by simp)
    · rw [if_neg hm] at h
      exact ih acc r h

/-- `applyTable` with no reported modification is the identity, and the
incoming flag was `false`. -/
theorem applyTable_false (t : List Char) (acc : List Char × Bool) (r : List Char)
    (h : applyTable t acc = (r, false)) : r = acc.1 ∧ acc.2 = false :=
  foldRep_false t _ acc r h

/-- `applyTable` never clears the `was_modified` flag. -/
theorem applyTable_snd_true (t : List Char) (acc : List Char × Bool)
    (h : acc.2 = true) : (applyTable t acc).2 = true :=
  foldRep_snd_true t _ acc h

/-- The table-normalisation fold with no reported modification is the
identity, and the incoming flag was `false`. -/
theorem tablesFold_false :
    ∀ (ts : List (List Char)) (acc : List Char × Bool) (r : List Char),
      ts.foldl (fun a t => applyTable t a) acc = (r, false) →
      r = acc.1 ∧ acc.2 = false := by
  intro ts
  induction ts with
  | nil =>
    intro acc r h
    obtain ⟨h1, h2⟩ := Prod.mk.injEq _ _ _ _ ▸ h.symm
    exact ⟨h1, h2.symm ▸ rfl⟩
  | cons t ts ih =>
    intro acc r h
    simp only [List.foldl_cons] at h
    obtain ⟨h1, h2⟩ := ih _ r h
    have happ : applyTable t acc = ((applyTable t acc).1, false) :=
      Prod.ext rfl h2
    obtain ⟨h3, h4⟩ := applyTable_false t acc _ happ
    exact ⟨h1.trans h3, h4⟩

/-- If `detect_and_fix_common_issues` reports `was_modified = false`, it
returned its input unchanged. -/
theorem detect_and_fix_unchanged (schema : List String) (query r : String)
    (h : SQLAgent.detect_and_fix_common_issues schema query = (r, false)) :
    r = query := by
  unfold SQLAgent.detect_and_fix_common_issues at h
  obtain ⟨h1, h2⟩ := Prod.mk.injEq _ _ _ _ ▸ h
  have hfold : (schema.map String.data).foldl (fun a t => applyTable t a)
      (quotePass query.data) =
      (((schema.map String.data).foldl (fun a t => applyTable t a)
        (quotePass query.data)).1, false) :=
    Prod.ext rfl h2
  obtain ⟨h3, h4⟩ := tablesFold_false _ _ _ hfold
  have hq : (quotePass query.data) = ((quotePass query.data).1, false) :=
    Prod.ext rfl h4
  have h5 : (quotePass query.data).1 = query.data :=
    quoteAux_unchanged _ _ _ hq
  rw [← h1, h3, h5]

/-- A block of characters satisfying `p`, followed by a block that does not
start with one, splits `takeWhile`/`dropWhile` exactly. -/
theorem takeWhile_append_block (p : Char → Bool) :
    ∀ (w post : List Char), (∀ c ∈ w, p c = true) →
      (∀ c, post.head? = some c → p c = false) →
      (w ++ post).takeWhile p = w ∧ (w ++ post).dropWhile p = post := by
  intro w
  induction w with
  | nil =>
    intro post _ hpost
    match post with
    | [] => exact ⟨rfl, rfl⟩
    | c :: rest =>
      have hc := hpost c rfl
      simp only [List.nil_append, List.takeWhile_cons, List.dropWhile_cons, hc]
      exact ⟨rfl, rfl⟩
  | cons a w ih =>
    intro post hw hpost
    have ha : p a = true := hw a (List.mem_cons_self a w)
    obtain ⟨h1, h2⟩ := ih post (fun c hc => hw c (List.mem_cons_of_mem _ hc)) hpost
    simp only [List.cons_append, List.takeWhile_cons, List.dropWhile_cons, ha, if_true]
    exact ⟨congrArg (fun x => a :: x) h1, h2⟩

/-- When the lookahead is clean after the whole word run, the backtracking
group keeps the full run. -/
theorem tryShrink_full (w tl : List Char) (hw : w ≠ []) (htl : laBad tl = false) :
    tryShrink w tl = some w.length := by
  unfold tryShrink
  obtain ⟨m, hlen⟩ : ∃ m, w.length = m + 1 := by
    cases w with
    | nil => exact absurd rfl hw
    | cons a l => exact ⟨l.length, rfl⟩
  have hdrop : w.drop (m + 1) = [] := by
    rw [← hlen]
    exact List.drop_length w
  rw [hlen]
  simp only [shrinkAux, hdrop, List.nil_append, htl]
  rw [← hlen]
  simp

/-- The quoting scan at a well-separated site `pre ++ "= " ++ w ++ post`:
when `pre` and `post` contain no `=`, the bareword run `w` is maximal, and
the negative lookahead is clean after the full run, the pass quotes exactly
`w` and changes nothing else. -/
theorem quoteAux_site :
    ∀ (pre : List Char) (n : Nat) (w post : List Char),
      '=' ∉ pre → '=' ∉ post → w ≠ [] → (∀ c ∈ w, isWordChar c = true) →
      (∀ c, post.head? = some c → isWordChar c = false) → laBad post = false →
      pre.length + w.length + post.length + 2 ≤ n →
      quoteAux n (pre ++ '=' :: ' ' :: (w ++ post)) =
        (pre ++ '=' :: ' ' :: '\'' :: (w ++ '\'' :: post), true) := by
  intro pre
  induction pre with
  | nil =>
    intro n w post _ hpost hw hword hsep hla hn
    match n with
    | nn + 1 =>
      obtain ⟨htw, hdw⟩ := takeWhile_append_block isWordChar w post hword hsep
      show quoteAux (nn + 1) ('=' :: ' ' :: (w ++ post)) = _
      simp only [quoteAux, List.tail_cons]
      rw [if_pos (by simp)]
      rw [htw, hdw, tryShrink_full w post hw hla]
      simp only [List.take_length, List.drop_length, List.nil_append,
        quoteAux_no_eq nn post hpost]
  | cons a pre ih =>
    intro n w post hpre hpost hw hword hsep hla hn
    have ha : a ≠ '=' := fun h => hpre (h ▸ List.mem_cons_self a pre)
    have hpre2 : '=' ∉ pre := fun hm => hpre (List.mem_cons_of_mem _ hm)
    match n with
    | nn + 1 =>
      show quoteAux (nn + 1) (a :: (pre ++ '=' :: ' ' :: (w ++ post))) = _
      simp only [quoteAux]
      rw [if_neg (fun h => ha h.1)]
      rw [ih nn w post hpre2 hpost hw hword hsep hla (by
        simp only [List.length_cons] at hn
        omega)]
      rfl

/-! ### Helper lemmas about the orchestration traces -/

@[simp] theorem isDebug_gen : isDebug Ev.genCall = false := rfl

@[simp] theorem isDebug_exec (q : String) : isDebug (Ev.execCall q) = false := rfl

@[simp] theorem isDebug_debug (q : String) : isDebug (Ev.debugCall q) = true := rfl

@[simp] theorem isDebug_summ : isDebug Ev.summCall = false := rfl

@[simp] theorem countDebug_nil : countDebug [] = 0 := rfl

@[simp] theorem countDebug_cons (e : Ev) (tr : List Ev) :
    countDebug (e :: tr) = countDebug tr + (if isDebug e then 1 else 0) := by
  simp [countDebug, List.countP_cons]

@[simp] theorem countDebug_append (l m : List Ev) :
    countDebug (l ++ m) = countDebug l + countDebug m := by
  simp [countDebug, List.countP_append]

@[simp] theorem generate_trace (w : World) :
    (LLMService.generate_sql_query w).2.2 = [Ev.genCall] := rfl

@[simp] theorem debug_trace (gt : String → Option String) (q e : String) (w : World) :
    (SQLAgent.debug_query gt q e w).2.2 = [Ev.debugCall q] := rfl

@[simp] theorem summarize_trace (uq sq : String) (rs : List Row) (w : World) :
    (LLMService.summarize_query_results uq sq rs w).2.2 = [Ev.summCall] := rfl

/-- The agent stage performs at most one debug-repair attempt. -/
theorem agent_countDebug (gt : String → Option String) (schema : List String)
    (query : String) (w : World) :
    countDebug (SQLAgent.process_query gt schema query w).2.2 ≤ 1 := by
  simp only [SQLAgent.process_query]
  split
  · simp
  · split
    · simp
    · split
      · split <;> simp
      · simp

/-- The agent stage never calls the summarizer. -/
theorem agent_no_summ (gt : String → Option String) (schema : List String)
    (query : String) (w : World) :
    Ev.summCall ∉ (SQLAgent.process_query gt schema query w).2.2 := by
  simp only [SQLAgent.process_query]
  split
  · simp
  · split
    · simp
    · split
      · split <;> simp
      · simp

/-- `simp` form of `agent_no_summ`. -/
@[simp] theorem agent_trace_no_summ (gt : String → Option String) (schema : List String)
    (query : String) (w : World) :
    Ev.summCall ∈ (SQLAgent.process_query gt schema query w).2.2 ↔ False :=
  iff_false_intro (agent_no_summ gt schema query w)

/-- The whole pipeline performs at most two debug-repair attempts. -/
theorem service_countDebug (gt : String → Option String) (schema : List String)
    (uq : String) (w : World) :
    countDebug (QueryService.process_query gt schema uq w).2.2 ≤ 2 := by
  simp only [QueryService.process_query]
  repeat' split
  all_goals first
    | (simp; done)
    | (simp
       exact agent_countDebug gt schema _ _)
    | (simp
       exact Nat.le_trans (agent_countDebug gt schema _ _) (by omega))

/-! ### Evaluation checks of the embedding

Concrete evaluations pinning the model to the observable behaviour of the
Python source (the `re` backtracking of the literal-quoting pattern, the
table pass, the validator, and a full pipeline run). -/

/-- The literal-quoting pass on characteristic inputs: full-run quoting,
backtracked partial quoting before `(`, `::` and `'`, repeated matches, and
the non-matching shapes (`= '...'`, double space, protected single-char
run). -/
theorem model_check_quote_pass :
    (quotePass "x = abc".data).1 = "x = \x27abc\x27".data ∧
    (quotePass "x = foo(1)".data).1 = "x = \x27fo\x27o(1)".data ∧
    (quotePass "x = abc::text".data).1 = "x = \x27ab\x27c::text".data ∧
    (quotePass "x = ab\x27c".data).1 = "x = \x27a\x27b\x27c".data ∧
    (quotePass "a = b = c".data).1 = "a = \x27b\x27 = \x27c\x27".data ∧
    (quotePass "x = 5".data).1 = "x = \x275\x27".data ∧
    (quotePass "x = f(1)".data) = ("x = f(1)".data, false) ∧
    (quotePass "x = 1 2".data) = ("x = 1 2".data, false) ∧
    (quotePass "x = \x27abc\x27".data) = ("x = \x27abc\x27".data, false) ∧
    (quotePass "x =  abc".data) = ("x =  abc".data, false) := by
  decide

/-- The table-name pass on characteristic inputs: case fixing inside a
query, replacement of all occurrences of a matched text, the `[s]?`
suffix, and a near-miss (`usrs`) that is out of the pattern's reach. -/
theorem model_check_table_pass :
    SQLAgent.detect_and_fix_common_issues ["users"]
        "SELECT * FROM Users WHERE name = \x27Users\x27" =
      ("SELECT * FROM users WHERE name = \x27users\x27", true) ∧
    SQLAgent.detect_and_fix_common_issues ["users"] "useRs useRs" =
      ("users users", true) ∧
    SQLAgent.detect_and_fix_common_issues ["user", "users"] "Userss" =
      ("users", true) ∧
    SQLAgent.detect_and_fix_common_issues ["users"] "SELECT * FROM usrs" =
      ("SELECT * FROM usrs", false) := by
  decide

/-- The validator on characteristic inputs: rule order (empty input, then
first-statement type, then the whole-text keyword scan), a keyword inside
a string literal still hitting the scan, and a column named like a
keyword-plus-suffix passing it. -/
theorem model_check_validator :
    SQLAgent.validate_query sqlparseGetType "   " =
      (false, "Empty or invalid SQL query") ∧
    SQLAgent.validate_query sqlparseGetType "DROP TABLE users" =
      (false, "Only SELECT queries are allowed") ∧
    SQLAgent.validate_query sqlparseGetType "SELECT 1; drop TABLE x" =
      (false, "Disallowed SQL keyword found: DROP") ∧
    SQLAgent.validate_query sqlparseGetType
        "SELECT * FROM t WHERE c = \x27DROP\x27" =
      (false, "Disallowed SQL keyword found: DROP") ∧
    SQLAgent.validate_query sqlparseGetType "SELECT updated FROM t" =
      (true, "Query validation successful") := by
  decide

/-- A full successful pipeline run (the spec's scenario: a clean SELECT,
one execution, a summarization call, `record_count` equal to the row
count), and a debugged run marking `was_debugged` and `original_query`. -/
theorem model_check_pipeline :
    (QueryService.process_query sqlparseGetType ["users"] "list all users"
        ⟨[GenResp.args (some "SELECT * FROM users") none], [],
         [Except.ok [[("id", some "1")], [("id", some "2")]]],
         [SummResp.ok "Two users."]⟩).1.record_count = some 2 ∧
    (QueryService.process_query sqlparseGetType ["users"] "list all users"
        ⟨[GenResp.args (some "SELECT * FROM users") none], [],
         [Except.ok [[("id", some "1")], [("id", some "2")]]],
         [SummResp.ok "Two users."]⟩).2.2 =
      [Ev.genCall, Ev.execCall "SELECT * FROM users", Ev.summCall] ∧
    (QueryService.process_query sqlparseGetType [] "q"
        ⟨[GenResp.args (some "SELECT a FROM t") none],
         [DebugResp.args (some "SELECT b FROM t") (some "renamed column") none],
         [Except.error "column a does not exist", Except.ok [[("b", some "1")]]],
         [SummResp.ok "s"]⟩).1.was_debugged = some true ∧
    (QueryService.process_query sqlparseGetType [] "q"
        ⟨[GenResp.args (some "SELECT a FROM t") none],
         [DebugResp.args (some "SELECT b FROM t") (some "renamed column") none],
         [Except.error "column a does not exist", Except.ok [[("b", some "1")]]],
         [SummResp.ok "s"]⟩).1.original_query = some "SELECT a FROM t" := by
  decide

/-! ### The claims -/

/-- C1 (code_bug): the claim states that a query for which validation
returned invalid is never executed.  The code violates this: on a
validation failure, `SQLAgent.process_query` immediately runs the rejected
statement against the database (`postgres_client.execute_query(query)`,
sql_agent.py lines 320-327, flagged "THIS IS POTENTIALLY DANGEROUS" in the
source) to harvest an error message for the debugger.  At the concrete
failing input below — a generated `DROP TABLE users` statement — the
validator rejects the statement, yet an executor call carrying exactly that
statement appears in the pipeline trace. -/
theorem claim_C1_invalid_query_reaches_executor :
    (SQLAgent.validate_query sqlparseGetType "DROP TABLE users").1 = false ∧
    Ev.execCall "DROP TABLE users" ∈
      (QueryService.process_query sqlparseGetType [] "drop the users table"
        ⟨[GenResp.args (some "DROP TABLE users") none], [DebugResp.noToolCall],
         [Except.error "permission denied for table users"], []⟩).2.2 := by
  decide

/-- C2 (counterexample): the claim states that statements after a
terminator are discarded and never executed, even if benign.  For the
generated text `SELECT 1; SELECT 2` the validator accepts (only the first
statement feeds the SELECT-type check and no blocked keyword occurs), and
the string handed to the executor is the *full* two-statement text — the
trailing `SELECT 2` is not discarded; no truncated form is ever executed. -/
theorem claim_C2_counterexample :
    (SQLAgent.validate_query sqlparseGetType "SELECT 1; SELECT 2").1 = true ∧
    Ev.execCall "SELECT 1; SELECT 2" ∈
      (QueryService.process_query sqlparseGetType [] "two selects"
        ⟨[GenResp.args (some "SELECT 1; SELECT 2") none], [],
         [Except.ok [[("c", some "1")]]], [SummResp.ok "sum"]⟩).2.2 ∧
    Ev.execCall "SELECT 1" ∉
      (QueryService.process_query sqlparseGetType [] "two selects"
        ⟨[GenResp.args (some "SELECT 1; SELECT 2") none], [],
         [Except.ok [[("c", some "1")]]], [SummResp.ok "sum"]⟩).2.2 ∧
    Ev.execCall "SELECT 1;" ∉
      (QueryService.process_query sqlparseGetType [] "two selects"
        ⟨[GenResp.args (some "SELECT 1; SELECT 2") none], [],
         [Except.ok [[("c", some "1")]]], [SummResp.ok "sum"]⟩).2.2 := by
  decide

/-- C2 (amended): only the first parsed statement determines the
SELECT-type check (a validated query's verdict comes from the type of the
first statement of the stripped text and the whole-text keyword scan), but
trailing statements are *not* discarded before execution: on every
successful pipeline run, the full accepted string — everything after a
terminator included — is exactly what is passed to the executor.
Destructive trailing statements are excluded only by the whole-text
blocked-keyword scan. -/
theorem claim_C2_amended :
    (∀ (gt : String → Option String) (q : String),
      (SQLAgent.validate_query gt q).1 = true →
        (∃ ty, gt (pyStrip q) = some ty ∧ upperStr ty = "SELECT") ∧
        ∀ kw ∈ BLOCKED_SQL_KEYWORDS, containsWholeWord kw q = false) ∧
    (∀ (gt : String → Option String) (schema : List String) (uq : String) (w : World),
      (QueryService.process_query gt schema uq w).1.success = true →
        ∃ q, (QueryService.process_query gt schema uq w).1.query = some q ∧
          Ev.execCall q ∈ (QueryService.process_query gt schema uq w).2.2) := by
  constructor
  · intro gt q hv
    unfold SQLAgent.validate_query at hv
    split at hv
    · exact absurd hv (by simp)
    · rename_i ty heq
      split at hv
      · exact absurd hv (by simp)
      · rename_i hty
        split at hv
        · exact absurd hv (by simp)
        · rename_i hfind
          simp only [Bool.or_eq_true, decide_eq_true_eq, not_or,
            Decidable.not_not] at hty
          refine ⟨⟨ty, heq, hty.2⟩, ?_⟩
          intro kw hkw
          have := List.find?_eq_none.mp hfind kw hkw
          simpa using this
  · intro gt schema uq w
    simp only [QueryService.process_query]
    repeat' split
    all_goals intro hs
    all_goals first
      | (simp [MockResponse.get_mock_response] at hs
         done)
      | (refine ⟨_, rfl, ?_⟩
         simp [MockResponse.get_empty_results_response])

/-- Witness for `claim_C2_amended` at the concrete two-statement query and
a concrete successful run. -/
theorem claim_C2_witness :
    ((∃ ty, sqlparseGetType (pyStrip "SELECT 1; SELECT 2") = some ty ∧
        upperStr ty = "SELECT") ∧
      ∀ kw ∈ BLOCKED_SQL_KEYWORDS, containsWholeWord kw "SELECT 1; SELECT 2" = false) ∧
    (∃ q,
      (QueryService.process_query sqlparseGetType [] "two selects"
        ⟨[GenResp.args (some "SELECT 1; SELECT 2") none], [],
         [Except.ok [[("c", some "1")]]], [SummResp.ok "sum"]⟩).1.query = some q ∧
      Ev.execCall q ∈
        (QueryService.process_query sqlparseGetType [] "two selects"
          ⟨[GenResp.args (some "SELECT 1; SELECT 2") none], [],
           [Except.ok [[("c", some "1")]]], [SummResp.ok "sum"]⟩).2.2) :=
  ⟨claim_C2_amended.1 sqlparseGetType "SELECT 1; SELECT 2" (by decide),
   claim_C2_amended.2 sqlparseGetType [] "two selects"
     ⟨[GenResp.args (some "SELECT 1; SELECT 2") none], [],
      [Except.ok [[("c", some "1")]]], [SummResp.ok "sum"]⟩ (by decide)⟩

/-- C3: every input containing a blocked keyword as a whole word (in any
letter case) is rejected by the safety validator, for every behaviour of
the statement parser — regardless of whether the rest of the statement is
valid, the validator returns invalid (either at the parse/type stage or at
the keyword scan). -/
theorem claim_C3_blocked_keyword_rejected (gt : String → Option String) (q : String)
    (h : ∃ kw ∈ BLOCKED_SQL_KEYWORDS, containsWholeWord kw q = true) :
    (SQLAgent.validate_query gt q).1 = false := by
  obtain ⟨kw, hmem, hkw⟩ := h
  unfold SQLAgent.validate_query
  split
  · rfl
  · split
    · rfl
    · split
      · rfl
      · rename_i hfind
        have := List.find?_eq_none.mp hfind kw hmem
        simp [hkw] at this

/-- Witness for `claim_C3_blocked_keyword_rejected`: a mixed-case `drop`
inside an otherwise well-formed SELECT text. -/
theorem claim_C3_witness :
    (SQLAgent.validate_query sqlparseGetType "Select 1; drop Table x").1 = false :=
  claim_C3_blocked_keyword_rejected sqlparseGetType "Select 1; drop Table x"
    ⟨"DROP", by decide, by decide⟩

/-- C4: every envelope produced by the pipeline satisfies the invariant:
exactly one of `data`, `error` is present; on `success = true` the `data`
and `query` fields are present and `error` is absent; on `success = false`
the `error` field is present and `data` is absent. -/
theorem claim_C4_envelope_invariant (gt : String → Option String)
    (schema : List String) (uq : String) (w : World) :
    ((QueryService.process_query gt schema uq w).1.data.isSome =
      !(QueryService.process_query gt schema uq w).1.error.isSome) ∧
    (if (QueryService.process_query gt schema uq w).1.success = true then
      (QueryService.process_query gt schema uq w).1.data.isSome = true ∧
      (QueryService.process_query gt schema uq w).1.query.isSome = true ∧
      (QueryService.process_query gt schema uq w).1.error = none
    else
      (QueryService.process_query gt schema uq w).1.error.isSome = true ∧
      (QueryService.process_query gt schema uq w).1.data = none) := by
  simp only [QueryService.process_query]
  repeat' split
  all_goals
    simp_all [MockResponse.get_mock_response, MockResponse.get_empty_results_response]

/-- C5 (counterexample): the heuristic fixer is not idempotent.  With the
schema tables `["user", "users"]` and the query text `Userss`, the first
application normalises `Userss` to `users` (a `\busers[s]?\b` match), and
the second application then normalises `users` to `user` (a `\buser[s]?\b`
match) and reports `changed = true` again — the second application neither
returns the same string nor reports `changed = false`. -/
theorem claim_C5_counterexample :
    ¬ ((SQLAgent.detect_and_fix_common_issues ["user", "users"]
          (SQLAgent.detect_and_fix_common_issues ["user", "users"] "Userss").1).1 =
        (SQLAgent.detect_and_fix_common_issues ["user", "users"] "Userss").1 ∧
      (SQLAgent.detect_and_fix_common_issues ["user", "users"]
          (SQLAgent.detect_and_fix_common_issues ["user", "users"] "Userss").1).2 =
        false) := by
  decide

/-- C5 (amended): the fixer is idempotent on the inputs it reports
unchanged: whenever `fix` returns `changed = false` it returned its input
verbatim, so a second application returns the very same result.  (On a
changed input a second application may change the string again, as the
counterexample shows.) -/
theorem claim_C5_amended (schema : List String) (query : String)
    (h : (SQLAgent.detect_and_fix_common_issues schema query).2 = false) :
    (SQLAgent.detect_and_fix_common_issues schema query).1 = query ∧
    SQLAgent.detect_and_fix_common_issues schema
        (SQLAgent.detect_and_fix_common_issues schema query).1 =
      SQLAgent.detect_and_fix_common_issues schema query := by
  have hfix : SQLAgent.detect_and_fix_common_issues schema query =
      ((SQLAgent.detect_and_fix_common_issues schema query).1, false) :=
    Prod.ext rfl h
  have h1 := detect_and_fix_unchanged schema query _ hfix
  exact ⟨h1, by rw [h1]⟩

/-- Witness for `claim_C5_amended` on a query the fixer does not change. -/
theorem claim_C5_witness :
    (SQLAgent.detect_and_fix_common_issues ["users"] "SELECT name FROM users").1 =
      "SELECT name FROM users" ∧
    SQLAgent.detect_and_fix_common_issues ["users"]
        (SQLAgent.detect_and_fix_common_issues ["users"] "SELECT name FROM users").1 =
      SQLAgent.detect_and_fix_common_issues ["users"] "SELECT name FROM users" :=
  claim_C5_amended ["users"] "SELECT name FROM users" (by decide)

/-- C6 (counterexample): the claim states that an occurrence of
`= <bareword>` followed by a function call (an opening parenthesis) is left
unchanged.  On `x = foo(1)` the Python regex engine instead backtracks the
greedy group and quotes the proper prefix `fo`, producing `x = 'fo'o(1)` —
the occurrence is rewritten, not left unchanged. -/
theorem claim_C6_counterexample :
    quotePass "x = foo(1)".data = ("x = \x27fo\x27o(1)".data, true) ∧
    "x = \x27fo\x27o(1)".data ≠ "x = foo(1)".data := by
  decide

/-- C6 (amended): at a well-separated occurrence `= <bareword>` whose
bareword run is *not* followed by optional whitespace and then a quote, a
digit, an opening parenthesis, or `::`, the pass rewrites exactly
`= <bareword>` into `= '<bareword>'` (an occurrence where `= ` is followed
by a non-word character, e.g. an existing quote, produces no match).  When
the run *is* so followed, the pass may instead quote the longest prefix of
the run whose remainder does not trigger the lookahead — it does not in
general leave the occurrence unchanged. -/
theorem claim_C6_amended (pre w post : List Char)
    (hpre : '=' ∉ pre) (hpost : '=' ∉ post) (hw : w ≠ [])
    (hword : ∀ c ∈ w, isWordChar c = true)
    (hsep : ∀ c, post.head? = some c → isWordChar c = false)
    (hla : laBad post = false) :
    quotePass (pre ++ '=' :: ' ' :: (w ++ post)) =
      (pre ++ '=' :: ' ' :: '\'' :: (w ++ '\'' :: post), true) := by
  unfold quotePass
  refine quoteAux_site pre _ w post hpre hpost hw hword hsep hla ?_
  simp [List.length_append]
  omega

/-- Witness for `claim_C6_amended` at `x = foo` (clean lookahead: the run
is at the end of the text). -/
theorem claim_C6_witness :
    quotePass ("x ".data ++ '=' :: ' ' :: ("foo".data ++ [])) =
      ("x ".data ++ '=' :: ' ' :: '\'' :: ("foo".data ++ '\'' :: []), true) :=
  claim_C6_amended "x ".data "foo".data [] (by decide) (by decide) (by decide)
    (by decide) (by intro c hc; simp at hc) (by decide)

/-- C7: debug repair is bounded exactly as claimed, for every behaviour of
the external collaborators: the pre-execution stage (`SQLAgent.process_query`,
covering the validation-failure repair) performs at most one debug attempt,
and a whole pipeline run performs at most two (the second being the
post-execution repair); a failing repaired query leads to a terminal
envelope, never to a further repair, since these bounds hold for all
oracle worlds including those in which every repair fails. -/
theorem claim_C7_debug_attempts_bounded :
    (∀ (gt : String → Option String) (schema : List String) (query : String)
      (w : World), countDebug (SQLAgent.process_query gt schema query w).2.2 ≤ 1) ∧
    (∀ (gt : String → Option String) (schema : List String) (uq : String)
      (w : World), countDebug (QueryService.process_query gt schema uq w).2.2 ≤ 2) :=
  ⟨agent_countDebug, service_countDebug⟩

/-- C8: in the handling of a structured generation response, a non-empty
`error` field wins over any `query` field, and a response with neither
usable field (or an empty query string) yields the failure
"Generated SQL query is empty". -/
theorem claim_C8_generation_response_handling (query? error? : Option String) :
    (∀ e, error? = some e → e ≠ "" → genRespToOutcome query? error? = (false, e)) ∧
    ((query? = none ∨ query? = some "") → (error? = none ∨ error? = some "") →
      genRespToOutcome query? error? = (false, "Generated SQL query is empty")) := by
  constructor
  · rintro e rfl hne
    simp [genRespToOutcome, hne]
  · rintro (rfl | rfl) (rfl | rfl) <;> simp [genRespToOutcome]

/-- Witness for `claim_C8_generation_response_handling`: an error response
that also carries a query, and a response with neither field. -/
theorem claim_C8_witness :
    genRespToOutcome (some "SELECT 1") (some "cannot answer") =
      (false, "cannot answer") ∧
    genRespToOutcome none none = (false, "Generated SQL query is empty") :=
  ⟨(claim_C8_generation_response_handling (some "SELECT 1")
      (some "cannot answer")).1 "cannot answer" rfl (by decide),
   (claim_C8_generation_response_handling none none).2 (Or.inl rfl) (Or.inl rfl)⟩

/-- C9: whenever the pipeline's envelope carries a present-but-empty data
set — which happens exactly when a validated (or repaired) query executed
and returned zero rows — the envelope is the distinct empty-results success
envelope with the fixed "no results" sentences, and no summarization call
appears anywhere in the trace. -/
theorem claim_C9_empty_results_short_circuit (gt : String → Option String)
    (schema : List String) (uq : String) (w : World)
    (h : (QueryService.process_query gt schema uq w).1.data = some []) :
    (QueryService.process_query gt schema uq w).1.success = true ∧
    (QueryService.process_query gt schema uq w).1.summary =
      some "No data was found for your query." ∧
    (QueryService.process_query gt schema uq w).1.message =
      some "Query executed successfully but returned no results." ∧
    Ev.summCall ∉ (QueryService.process_query gt schema uq w).2.2 := by
  revert h
  simp only [QueryService.process_query]
  repeat' split
  all_goals intro h
  all_goals
    simp_all [MockResponse.get_mock_response, MockResponse.get_empty_results_response]

/-- Witness for `claim_C9_empty_results_short_circuit` at a concrete run
whose single execution returns zero rows. -/
theorem claim_C9_witness :
    (QueryService.process_query sqlparseGetType [] "list the users"
        ⟨[GenResp.args (some "SELECT name FROM users") none], [],
         [Except.ok []], [SummResp.ok "unused"]⟩).1.success = true ∧
    (QueryService.process_query sqlparseGetType [] "list the users"
        ⟨[GenResp.args (some "SELECT name FROM users") none], [],
         [Except.ok []], [SummResp.ok "unused"]⟩).1.summary =
      some "No data was found for your query." ∧
    (QueryService.process_query sqlparseGetType [] "list the users"
        ⟨[GenResp.args (some "SELECT name FROM users") none], [],
         [Except.ok []], [SummResp.ok "unused"]⟩).1.message =
      some "Query executed successfully but returned no results." ∧
    Ev.summCall ∉
      (QueryService.process_query sqlparseGetType [] "list the users"
        ⟨[GenResp.args (some "SELECT name FROM users") none], [],
         [Except.ok []], [SummResp.ok "unused"]⟩).2.2 :=
  claim_C9_empty_results_short_circuit sqlparseGetType [] "list the users"
    ⟨[GenResp.args (some "SELECT name FROM users") none], [],
     [Except.ok []], [SummResp.ok "unused"]⟩ (by decide)

/-- C10: the summarizer never fails the request.  The model of
`summarize_query_results` is a total function (every exception path of the
Python body is caught inside it), and any internal failure — a failing
client initialization, or a failing completion call on a non-empty result
set — yields exactly the fixed fallback sentence of the
`summarization_failed` mock response rather than an error. -/
theorem claim_C10_summarizer_never_fails (uq sq : String) (rows : List Row)
    (w : World) (m : String) :
    (w.summs.head? = some (SummResp.initRaise m) →
      (LLMService.summarize_query_results uq sq rows w).1 =
        "I couldn\x27t generate a summary for the query results.") ∧
    (w.summs.head? = some (SummResp.apiRaise m) → rows ≠ [] →
      (LLMService.summarize_query_results uq sq rows w).1 =
        "I couldn\x27t generate a summary for the query results.") := by
  constructor
  · intro h
    obtain ⟨g, d, e, su⟩ := w
    cases su with
    | nil => simp at h
    | cons a l =>
      simp only [List.head?_cons, Option.some.injEq] at h
      subst h
      rfl
  · intro h hr
    obtain ⟨g, d, e, su⟩ := w
    cases su with
    | nil => simp at h
    | cons a l =>
      simp only [List.head?_cons, Option.some.injEq] at h
      subst h
      cases rows with
      | nil => exact absurd rfl hr
      | cons r rs => rfl

/-- Witness for `claim_C10_summarizer_never_fails`: a failing client
initialization and a failing completion call on one row. -/
theorem claim_C10_witness :
    (LLMService.summarize_query_results "q" "SELECT 1" [[("c", some "1")]]
        ⟨[], [], [], [SummResp.initRaise "bad api key"]⟩).1 =
      "I couldn\x27t generate a summary for the query results." ∧
    (LLMService.summarize_query_results "q" "SELECT 1" [[("c", some "1")]]
        ⟨[], [], [], [SummResp.apiRaise "rate limited"]⟩).1 =
      "I couldn\x27t generate a summary for the query results." :=
  ⟨(claim_C10_summarizer_never_fails "q" "SELECT 1" [[("c", some "1")]]
      ⟨[], [], [], [SummResp.initRaise "bad api key"]⟩ "bad api key").1 rfl,
   (claim_C10_summarizer_never_fails "q" "SELECT 1" [[("c", some "1")]]
      ⟨[], [], [], [SummResp.apiRaise "rate limited"]⟩ "rate limited").2 rfl
     (by decide)⟩
